import Mathlib

/-!
Shallow embedding of the SW.Module.Logger repository (C++ sources under
`src/Logger/`).  The repository wraps spdlog: `LogSystem.cpp` holds the
lifecycle code (Initialize / Shutdown / AddSystemSink / AddAppSink /
ReportAssertionFailure / PrepareAndPrint); `LogSystem.hpp` holds the
per-level logging macros and the ASSERT / VERIFY macros;
`LogCustomFormatters.hpp` holds the formatter-generating macro families.

The two revisions present in the sources name the pair of loggers
system/app (in `LogSystem.cpp`) and engine/runtime (in `LogSystem.hpp`);
they are the same pair of handles, and we use the system/app names with
`LoggerId.system` standing for the engine a.k.a. system logger.
-/

namespace SW.Logger

/-- The spdlog severity levels, in the order spdlog declares them.  Sink and
logger behaviour of spdlog relevant to the claims is modelled explicitly. -/
inductive SpdLevel
  | trace
  | debug
  | info
  | warn
  | err
  | critical
deriving DecidableEq, Repr

/-- The kind of a sink created by `LogSystem::Initialize`:
`spdlog::sinks::stdout_color_sink_mt` or
`spdlog::sinks::daily_file_sink_mt(filename, rotationHour, rotationMinute)`. -/
inductive SinkKind
  | console
  | dailyFile (filename : String) (rotationHour rotationMinute : Nat)
deriving DecidableEq, Repr

/-- A sink as configured by the repository: its kind plus the pattern set by
`set_pattern` (`none` while the sink still has spdlog's default pattern). -/
structure Sink where
  kind : SinkKind
  pattern : Option String
deriving DecidableEq, Repr

/-- An spdlog logger as configured by the repository: name, attached sinks,
minimum level (`set_level`), and flush level (`flush_on`; `none` while
flushing is spdlog's default, i.e. not on every record). -/
structure Logger where
  name : String
  sinks : List Sink
  level : SpdLevel
  flushLevel : Option SpdLevel
deriving DecidableEq, Repr

/-- The `LogSystemSpecification` record of the revision in `LogSystem.cpp`
(the fields that `Initialize` reads: `spec.LogFileName`,
`spec.ConsoleSinkLoggerPattern`, `spec.FileSinkLoggerPattern`,
`spec.SystemLoggerName`, `spec.AppLoggerName`). -/
structure LogSystemSpecification where
  LogFileName : String
  ConsoleSinkLoggerPattern : String
  FileSinkLoggerPattern : String
  SystemLoggerName : String
  AppLoggerName : String
deriving DecidableEq, Repr

/-- The process-wide static state: the two logger handles
`LogSystem::s_SystemLogger` and `LogSystem::s_AppLogger` (null pointers are
`none`), plus spdlog's global logger registry (the names passed to
`spdlog::register_logger`, in registration order). -/
structure LogState where
  s_SystemLogger : Option Logger
  s_AppLogger : Option Logger
  registry : List String
deriving DecidableEq, Repr

/-- Replace the pattern of the sink at index `i` (models
`logSinks[i]->set_pattern(p)`). -/
def setSinkPattern (sinks : List Sink) (i : Nat) (p : String) : List Sink :=
  sinks.enum.map (fun x => if x.1 = i then { x.2 with pattern := some p } else x.2)

/-- `LogSystem::Initialize(spec)` from `LogSystem.cpp`, step by step: build the
`logSinks` vector (console sink, then daily file sink with rotation time 0:0),
set the two patterns, construct each logger over both sinks, set its level to
`trace`, enable `flush_on(trace)`, and register it with spdlog. -/
def LogSystem.init (spec : LogSystemSpecification) (st : LogState) : LogState :=
  let logSinks : List Sink := []
  let logSinks := logSinks ++ [{ kind := SinkKind.console, pattern := none }]
  let logSinks := logSinks ++
    [{ kind := SinkKind.dailyFile spec.LogFileName 0 0, pattern := none }]
  let logSinks := setSinkPattern logSinks 0 spec.ConsoleSinkLoggerPattern
  let logSinks := setSinkPattern logSinks 1 spec.FileSinkLoggerPattern
  let sys : Logger :=
    { name := spec.SystemLoggerName, sinks := logSinks,
      level := SpdLevel.info, flushLevel := none }
  let sys := { sys with level := SpdLevel.trace }
  let sys := { sys with flushLevel := some SpdLevel.trace }
  let st := { st with s_SystemLogger := some sys, registry := st.registry ++ [sys.name] }
  let app : Logger :=
    { name := spec.AppLoggerName, sinks := logSinks,
      level := SpdLevel.info, flushLevel := none }
  let app := { app with level := SpdLevel.trace }
  let app := { app with flushLevel := some SpdLevel.trace }
  { st with s_AppLogger := some app, registry := st.registry ++ [app.name] }

/-- `LogSystem::Shutdown()` from `LogSystem.cpp`: reset both handles, then
`spdlog::drop_all()` (which empties spdlog's global registry). -/
def LogSystem.shutdown (st : LogState) : LogState :=
  let st := { st with s_SystemLogger := none }
  let st := { st with s_AppLogger := none }
  { st with registry := [] }

/-- `LogSystem::AddSystemSink(sink)` from `LogSystem.cpp`:
`s_SystemLogger->sinks().push_back(sink)` (a null handle would be a crash in
the C++ source; the `Option.map` leaves the null case unreachable here). -/
def LogSystem.AddSystemSink (st : LogState) (sink : Sink) : LogState :=
  { st with s_SystemLogger :=
      st.s_SystemLogger.map (fun L => { L with sinks := L.sinks ++ [sink] }) }

/-- `LogSystem::AddAppSink(sink)` from `LogSystem.cpp`:
`s_AppLogger->sinks().push_back(sink)`. -/
def LogSystem.AddAppSink (st : LogState) (sink : Sink) : LogState :=
  { st with s_AppLogger :=
      st.s_AppLogger.map (fun L => { L with sinks := L.sinks ++ [sink] }) }

/-- Whether a sink is the console sink. -/
def Sink.isConsole (s : Sink) : Bool :=
  match s.kind with
  | SinkKind.console => true
  | SinkKind.dailyFile _ _ _ => false

/-- Whether a sink is a daily-rotating file sink. -/
def Sink.isDailyFile (s : Sink) : Bool :=
  match s.kind with
  | SinkKind.console => false
  | SinkKind.dailyFile _ _ _ => true

/-- The file path of a daily file sink, if it is one. -/
def Sink.filePath (s : Sink) : Option String :=
  match s.kind with
  | SinkKind.console => none
  | SinkKind.dailyFile p _ _ => some p

/-- The `LogType` enumeration of the revision in `LogSystem.cpp`
(`LogType::SYSTEM`, `LogType::APP`; the header revision spells the same pair
`ENGINE` / `RUNTIME`). -/
inductive LogType
  | SYSTEM
  | APP
deriving DecidableEq, Repr

/-- The `LogLevel` enumeration used by `PrepareAndPrint` in `LogSystem.cpp`. -/
inductive LogLevel
  | LOG_LEVEL_TRACE
  | LOG_LEVEL_INFO
  | LOG_LEVEL_DEBUG
  | LOG_LEVEL_WARN
  | LOG_LEVEL_ERROR
  | LOG_LEVEL_FATAL
deriving DecidableEq, Repr

/-- Identity of the two static logger handles: `LoggerId.system` is
`s_SystemLogger` alias `EngineLogger` (the engine/system logger), and
`LoggerId.app` is `s_AppLogger` alias `RuntimeLogger` (the app/runtime
logger). -/
inductive LoggerId
  | system
  | app
deriving DecidableEq, Repr

/-- A log record as observed at the spdlog boundary: which handle received
it, at which spdlog level, with which final message text. -/
structure Record where
  logger : LoggerId
  level : SpdLevel
  text : String
deriving DecidableEq, Repr

/-- The opening-brace character of a format placeholder. -/
def lbrace : Char := Char.ofNat 123

/-- The closing-brace character of a format placeholder. -/
def rbrace : Char := Char.ofNat 125

/-- The fmt-style interpolation performed by spdlog / std::format on the
format strings this repository passes along: `\x7b\x7d` takes the next
argument in sequence, `\x7bi\x7d` (single decimal digit `i`) takes argument
`i`; every other character is copied verbatim.  `args` are the already
stringified arguments and `next` is the index of the next sequential
argument. -/
def interpGo : Nat → List Char → List String → Nat → List Char
  | 0, cs, _, _ => cs
  | fuel + 1, cs, args, next =>
    match cs with
    | [] => []
    | c1 :: rest =>
      if c1 = lbrace then
        match rest with
        | c2 :: rest2 =>
          if c2 = rbrace then
            (args.getD next "").data ++ interpGo fuel rest2 args (next + 1)
          else if c2.isDigit then
            match rest2 with
            | c3 :: rest3 =>
              if c3 = rbrace then
                (args.getD (c2.toNat - 48) "").data ++ interpGo fuel rest3 args next
              else
                c1 :: interpGo fuel rest args next
            | [] => [c1, c2]
          else
            c1 :: interpGo fuel rest args next
        | [] => [c1]
      else
        c1 :: interpGo fuel rest args next

/-- Entry point of the interpolation: the fuel is the input length, which the
recursion never exhausts (`interpGo` consumes at least one character per unit
of fuel). -/
def interpArgs (cs : List Char) (args : List String) (next : Nat) : List Char :=
  interpGo cs.length cs args next

/-- Interpolate a format string with stringified arguments (the eager
formatting the repository delegates to fmt / std::format). -/
def fmtArgs (fmt : String) (args : List String) : String :=
  String.mk (interpArgs fmt.data args 0)

/-- A format string (or stringified expression spliced into one) is free of
opening braces, so interpolation copies it verbatim. -/
def lbraceFree (cs : List Char) : Bool :=
  cs.all (fun c => !(c == lbrace))

/-- One spdlog per-level call on a logger handle, e.g. `logger->trace(fmt,
tag, message)`: it interpolates and yields a record at that level on that
handle. -/
def loggerEmit (id : LoggerId) (lvl : SpdLevel) (fmt : String)
    (args : List String) : Record :=
  { logger := id, level := lvl, text := fmtArgs fmt args }

/-- The inner `LogSystem::PrepareAndPrint(logger, type, level, tag, message)`
overload of `LogSystem.cpp`: a switch over `level` calling the matching
per-level spdlog call with format string `"\x7b0\x7d\x7b1\x7d"` and
arguments `tag`, `message` (the `type` parameter is unused by the switch,
as in the source). -/
def LogSystem.PrepareAndPrintOn (id : LoggerId) (_type : LogType)
    (level : LogLevel) (tag message : String) : Record :=
  match level with
  | LogLevel.LOG_LEVEL_TRACE =>
    loggerEmit id SpdLevel.trace "\x7b0\x7d\x7b1\x7d" [tag, message]
  | LogLevel.LOG_LEVEL_INFO =>
    loggerEmit id SpdLevel.info "\x7b0\x7d\x7b1\x7d" [tag, message]
  | LogLevel.LOG_LEVEL_WARN =>
    loggerEmit id SpdLevel.warn "\x7b0\x7d\x7b1\x7d" [tag, message]
  | LogLevel.LOG_LEVEL_DEBUG =>
    loggerEmit id SpdLevel.debug "\x7b0\x7d\x7b1\x7d" [tag, message]
  | LogLevel.LOG_LEVEL_ERROR =>
    loggerEmit id SpdLevel.err "\x7b0\x7d\x7b1\x7d" [tag, message]
  | LogLevel.LOG_LEVEL_FATAL =>
    loggerEmit id SpdLevel.critical "\x7b0\x7d\x7b1\x7d" [tag, message]

/-- The outer `LogSystem::PrepareAndPrint(type, level, tag, message)`
overload of `LogSystem.cpp`: select `s_SystemLogger` when
`type == LogType::SYSTEM`, else `s_AppLogger`, and dispatch on it. -/
def LogSystem.PrepareAndPrint (type : LogType) (level : LogLevel)
    (tag message : String) : Record :=
  let id := if type = LogType.SYSTEM then LoggerId.system else LoggerId.app
  LogSystem.PrepareAndPrintOn id type level tag message

/-- Result of running a checked macro or a logging call: the records emitted
and whether `DEBUG_BREAK()` (the debugger trap) was executed. -/
structure CheckResult where
  records : List Record
  trapped : Bool
deriving DecidableEq, Repr

/-- The `ASSERT(x, fmt, ...)` macro of `LogSystem.hpp` as a whole-build
family: when `SW_LOGGER_DISABLE_ASSERTS` is defined (`assertsDisabled`)
the macro expands to nothing; otherwise, if the condition is false it calls
`EngineLogger->log(loc, critical, "Assertion failed: (" #x ")\nMessage: "
fmt, args...)` and then `DEBUG_BREAK()`.  `condText` is the stringified
condition `#x`. -/
def assertRun (assertsDisabled : Bool) (cond : Bool) (condText fmt : String)
    (args : List String) : CheckResult :=
  if assertsDisabled then { records := [], trapped := false }
  else if cond then { records := [], trapped := false }
  else
    { records :=
        [loggerEmit LoggerId.system SpdLevel.critical
          ("Assertion failed: (" ++ condText ++ ")\nMessage: " ++ fmt) args],
      trapped := true }

/-- The `VERIFY(x, fmt, ...)` macro of `LogSystem.hpp`: same body as the
enabled `ASSERT` (log critical on the engine logger, then `DEBUG_BREAK()`),
translated independently from its own macro text. -/
def verifyRun (cond : Bool) (condText fmt : String)
    (args : List String) : CheckResult :=
  if cond then { records := [], trapped := false }
  else
    { records :=
        [loggerEmit LoggerId.system SpdLevel.critical
          ("Assertion failed: (" ++ condText ++ ")\nMessage: " ++ fmt) args],
      trapped := true }

/-- `VERIFY` as seen under the `SW_LOGGER_DISABLE_ASSERTS` build switch: the
`#define VERIFY` in `LogSystem.hpp` sits outside the
`#ifndef SW_LOGGER_DISABLE_ASSERTS` block, so its expansion does not depend
on the switch. -/
def verifyRunUnderFlag (_assertsDisabled : Bool) (cond : Bool)
    (condText fmt : String) (args : List String) : CheckResult :=
  verifyRun cond condText fmt args

/-- The `SW_ENGINE_CRITICAL(fmt, ...)` macro of `LogSystem.hpp`: it expands
to `EngineLogger->log(loc, critical, fmt, args...)` and nothing else — the
`DEBUG_BREAK();` line directly below its definition is commented out, so no
trap is executed. -/
def SW_ENGINE_CRITICAL (fmt : String) (args : List String) : CheckResult :=
  { records := [loggerEmit LoggerId.system SpdLevel.critical fmt args],
    trapped := false }

/-- Modelled from the spec: `LogSystem::PrintMessage` is called by
`ReportAssertionFailure` in `LogSystem.cpp` but its definition (a templated
helper of that revision's header) is not under `src/`.  Per the spec's
generic entry point, it eagerly interpolates the format string with the
arguments and dispatches the level-matching call on the handle selected by
the selector; its signature carries no tag, modelled as the empty tag. -/
def LogSystem.PrintMessage (type : LogType) (level : LogLevel)
    (fmt : String) (args : List String) : Record :=
  LogSystem.PrepareAndPrint type level "" (fmtArgs fmt args)

/-- `LogSystem::ReportAssertionFailure(expression, message, file, line)` from
`LogSystem.cpp`: `PrintMessage(LogType::SYSTEM, LogLevel::LOG_LEVEL_FATAL,
"Assertion Failure: \x7b\x7d, message: \x27\x7b\x7d\x27, in file: \x7b\x7d,
line: \x7b\x7d\n", expression, message, file, line)`. -/
def LogSystem.ReportAssertionFailure (expression message file : String)
    (line : Int) : Record :=
  LogSystem.PrintMessage LogType.SYSTEM LogLevel.LOG_LEVEL_FATAL
    "Assertion Failure: \x7b\x7d, message: \x27\x7b\x7d\x27, in file: \x7b\x7d, line: \x7b\x7d\n"
    [expression, message, file, toString line]

/-- The per-level spdlog call the claims expect severity `l` to be matched
with: each wrapper level to its namesake, `LOG_LEVEL_FATAL` to spdlog's
`critical`. -/
def matchingSpdLevel : LogLevel → SpdLevel
  | LogLevel.LOG_LEVEL_TRACE => SpdLevel.trace
  | LogLevel.LOG_LEVEL_INFO => SpdLevel.info
  | LogLevel.LOG_LEVEL_DEBUG => SpdLevel.debug
  | LogLevel.LOG_LEVEL_WARN => SpdLevel.warn
  | LogLevel.LOG_LEVEL_ERROR => SpdLevel.err
  | LogLevel.LOG_LEVEL_FATAL => SpdLevel.critical

/-- The `parse` step generated by `BEGIN_ADV_FORMATTER(T)` in
`LogCustomFormatters.hpp`, over the characters of the format-parse context
from `ctx.begin()` (the specifier's characters followed by the terminating
closing brace and the rest of the format string): `if (it != end && *it !=
closing-brace) throw format_error("invalid format"); return it;`. -/
def advFormatterParse (ctx : List Char) : Except String (List Char) :=
  match ctx with
  | [] => Except.ok []
  | c :: _ => if c = rbrace then Except.ok ctx else Except.error "invalid format"

/-- Modelled from the spec: the basic iterator-based formatter family is the
third macro family named by the spec ("basic/advanced iterator-based,
cast-based") and is not present under `src/`; per the spec all three families
require "a parse step that accepts an empty format specifier and otherwise
fails with a format error", i.e. the same parse as the advanced family. -/
def basicFormatterParse (ctx : List Char) : Except String (List Char) :=
  match ctx with
  | [] => Except.ok []
  | c :: _ => if c = rbrace then Except.ok ctx else Except.error "invalid format"

/-- One of the alignment characters of a standard format specifier. -/
def isAlignChar (c : Char) : Bool :=
  c == Char.ofNat 60 || c == Char.ofNat 62 || c == Char.ofNat 94

/-- Drop an optional fill-and-align prefix of a standard string format
specifier (a fill character other than a brace followed by an align
character, or an align character alone). -/
def dropFillAlign : List Char → List Char
  | a :: b :: rest =>
    if isAlignChar b && !(a == lbrace) && !(a == rbrace) then rest
    else if isAlignChar a then b :: rest
    else a :: b :: rest
  | [a] => if isAlignChar a then [] else [a]
  | [] => []

/-- Drop an optional width field of a standard string format specifier (a
positive decimal without a leading zero). -/
def dropWidth : List Char → List Char
  | c :: rest =>
    if c.isDigit && !(c == Char.ofNat 48) then rest.dropWhile Char.isDigit
    else c :: rest
  | [] => []

/-- Drop an optional precision field of a standard string format specifier
(a dot followed by a decimal); `none` when a dot is not followed by a
digit, which is ill-formed. -/
def dropPrecision : List Char → Option (List Char)
  | c :: rest =>
    if c == Char.ofNat 46 then
      match rest with
      | d :: rest2 =>
        if d.isDigit then some (rest2.dropWhile Char.isDigit) else none
      | [] => none
    else some (c :: rest)
  | [] => some []

/-- Drop the optional presentation type of a standard string format
specifier (the character `s`). -/
def dropPresentationType : List Char → List Char
  | c :: rest => if c == Char.ofNat 115 then rest else c :: rest
  | [] => []

/-- Whether a specifier is a valid standard format specifier for strings:
optional fill-and-align, optional width, optional precision, optional `s`,
and nothing else. -/
def stdStringSpecValid (s : List Char) : Bool :=
  match dropPrecision (dropWidth (dropFillAlign s)) with
  | some r => (dropPresentationType r).isEmpty
  | none => false

/-- The `parse` step of the standard library's `formatter<std::string>`
(std::format / fmt), over the characters of the format-parse context: it
consumes the specifier up to the terminating closing brace and succeeds
exactly on valid standard string specifiers. -/
def stdStringFormatterParse (ctx : List Char) : Except String (List Char) :=
  let spec := ctx.takeWhile (fun c => !(c == rbrace))
  if stdStringSpecValid spec then Except.ok (ctx.drop spec.length)
  else Except.error "invalid format"

/-- The `parse` step of a formatter generated by `BEGIN_CAST_FORMATTER(T)` in
`LogCustomFormatters.hpp`: the macro derives `formatter<T>` from
`formatter<std::string>` and overrides only `format`, so `parse` is the
inherited standard string formatter parse. -/
def castFormatterParse (ctx : List Char) : Except String (List Char) :=
  stdStringFormatterParse ctx

/-- The `format` step of the standard library's `formatter<std::string>`
with the default (empty) specifier state, as invoked by `FORMATTER_CAST` on
a freshly constructed `formatter<std::string>()`: it writes the string's
characters to the output iterator. -/
def stringFormatterWrite (v : String) (out : List Char) : List Char :=
  out ++ v.data

/-- `std::filesystem::path` as the test file registers a formatter for: a
wrapper around its native string representation; `FsPath.string` models
`value.string()`. -/
structure FsPath where
  native : String
deriving DecidableEq, Repr

/-- `value.string()` on a `std::filesystem::path`. -/
def FsPath.string (p : FsPath) : String :=
  p.native

/-- A value passed to the formatting backend: either a `std::string` or a
`std::filesystem::path` (whose formatter is the one generated by
`BEGIN_CAST_FORMATTER(std::filesystem::path); FORMATTER_CAST(std::string,
value.string());` in the test file). -/
inductive FmtValue
  | ofString (s : String)
  | ofPath (p : FsPath)
deriving DecidableEq, Repr

/-- Dispatch of the backend's `format` step for a value: strings go to the
standard string formatter; paths go to the cast-generated formatter, whose
body is `return formatter<std::string>().format(value.string(), ctx)`. -/
def formatFmtValue : FmtValue → List Char → List Char
  | FmtValue.ofString s, out => stringFormatterWrite s out
  | FmtValue.ofPath p, out => stringFormatterWrite (FsPath.string p) out

/-- `format(v)`: format a single value with the default specifier into an
empty output buffer, as in `std::format("\x7b\x7d", v)`. -/
def formatValue (v : FmtValue) : String :=
  String.mk (formatFmtValue v [])

/-- A concrete specification record (the one in `tests/test.cpp`). -/
def spec0 : LogSystemSpecification :=
  { LogFileName := "logs/SW.log", ConsoleSinkLoggerPattern := "cpat",
    FileSinkLoggerPattern := "fpat", SystemLoggerName := "SYSTEM",
    AppLoggerName := "APP" }

/-- The state after initializing from the empty state with `spec0`. -/
def st0 : LogState :=
  LogSystem.init spec0 { s_SystemLogger := none, s_AppLogger := none, registry := [] }

/-- The system logger `st0` holds. -/
def sysL0 : Logger :=
  { name := "SYSTEM",
    sinks := [{ kind := SinkKind.console, pattern := some "cpat" },
              { kind := SinkKind.dailyFile "logs/SW.log" 0 0, pattern := some "fpat" }],
    level := SpdLevel.trace, flushLevel := some SpdLevel.trace }

/-- The app logger `st0` holds. -/
def appL0 : Logger :=
  { name := "APP",
    sinks := [{ kind := SinkKind.console, pattern := some "cpat" },
              { kind := SinkKind.dailyFile "logs/SW.log" 0 0, pattern := some "fpat" }],
    level := SpdLevel.trace, flushLevel := some SpdLevel.trace }

/-- An extra sink, as a caller of `AddSystemSink` would register. -/
def sink0 : Sink :=
  { kind := SinkKind.console, pattern := none }

theorem String.mk_append_data (a b : String) :
    String.mk (a.data ++ b.data) = a ++ b := by
  cases a
  cases b
  rfl

theorem interpGo_congr (f1 : Nat) :
    ∀ (f2 : Nat) (cs : List Char) (args : List String) (n : Nat),
      cs.length ≤ f1 → cs.length ≤ f2 →
      interpGo f1 cs args n = interpGo f2 cs args n := by
  induction f1 with
  | zero =>
    intro f2 cs args n h1 _
    have hnil : cs = [] := List.eq_nil_of_length_eq_zero (Nat.le_zero.mp h1)
    subst hnil
    cases f2 <;> rfl
  | succ f ih =>
    intro f2 cs args n h1 h2
    cases cs with
    | nil => cases f2 <;> rfl
    | cons c1 rest =>
      cases f2 with
      | zero => simp at h2
      | succ g =>
        have hr : rest.length ≤ f := by simp at h1; omega
        have hr2 : rest.length ≤ g := by simp at h2; omega
        simp only [interpGo]
        by_cases hc1 : c1 = lbrace
        · simp only [hc1, if_true]
          cases rest with
          | nil => rfl
          | cons c2 rest2 =>
            have h2r : rest2.length ≤ f := by simp at hr; omega
            have h2r2 : rest2.length ≤ g := by simp at hr2; omega
            by_cases hc2 : c2 = rbrace
            · simp only [hc2, if_true]
              rw [ih g rest2 args (n + 1) h2r h2r2]
            · simp only [hc2, if_false]
              by_cases hd : c2.isDigit
              · simp only [hd, if_true]
                cases rest2 with
                | nil => rfl
                | cons c3 rest3 =>
                  have h3r : rest3.length ≤ f := by simp at h2r; omega
                  have h3r2 : rest3.length ≤ g := by simp at h2r2; omega
                  by_cases hc3 : c3 = rbrace
                  · simp only [hc3, if_true]
                    rw [ih g rest3 args n h3r h3r2]
                  · simp only [hc3, if_false]
                    rw [ih g (c2 :: c3 :: rest3) args n hr hr2]
              · simp only [hd, Bool.false_eq_true, if_false]
                rw [ih g (c2 :: rest2) args n hr hr2]
        · simp only [hc1, if_false]
          rw [ih g rest args n hr hr2]

theorem interpGo_spill (fuel : Nat) (cs : List Char) (args : List String)
    (n : Nat) (h : cs.length ≤ fuel) :
    interpGo fuel cs args n = interpArgs cs args n :=
  interpGo_congr fuel cs.length cs args n h (Nat.le_refl _)

theorem interpArgs_cons_of_not_lbrace (c : Char) (t : List Char)
    (args : List String) (n : Nat) (h : (c == lbrace) = false) :
    interpArgs (c :: t) args n = c :: interpArgs t args n := by
  have hne : ¬(c = lbrace) := by simpa using h
  show interpGo (c :: t).length (c :: t) args n = _
  simp only [List.length_cons, interpGo, hne, if_false]
  rfl

theorem interpArgs_append_of_lbraceFree (xs ys : List Char)
    (args : List String) (n : Nat) (h : lbraceFree xs = true) :
    interpArgs (xs ++ ys) args n = xs ++ interpArgs ys args n := by
  induction xs with
  | nil => simp
  | cons c t ih =>
    simp only [lbraceFree, List.all_cons, Bool.and_eq_true] at h
    rw [List.cons_append,
      interpArgs_cons_of_not_lbrace c (t ++ ys) args n (by simpa using h.1),
      ih h.2, List.cons_append]

theorem assert_message_shape (condText fmt : String) (args : List String)
    (h : lbraceFree condText.data = true) :
    fmtArgs ("Assertion failed: (" ++ condText ++ ")\nMessage: " ++ fmt) args =
      String.mk ("Assertion failed: (".data ++ condText.data ++
        ")\nMessage: ".data ++ (fmtArgs fmt args).data) := by
  have hdata : ("Assertion failed: (" ++ condText ++ ")\nMessage: " ++ fmt).data =
      "Assertion failed: (".data ++ (condText.data ++
        (")\nMessage: ".data ++ fmt.data)) := by
    simp [String.data_append]
  unfold fmtArgs
  rw [hdata,
    interpArgs_append_of_lbraceFree _ _ args 0 (by decide),
    interpArgs_append_of_lbraceFree _ _ args 0 h,
    interpArgs_append_of_lbraceFree _ _ args 0 (by decide)]
  simp

theorem fmtArgs_pos01 (a b : String) :
    fmtArgs "\x7b0\x7d\x7b1\x7d" [a, b] = a ++ b := by
  have h : interpArgs (String.data "\x7b0\x7d\x7b1\x7d") [a, b] 0 =
      a.data ++ (b.data ++ []) := rfl
  rw [fmtArgs, h, List.append_nil, String.mk_append_data]

/-- Claim C1: for every specification record, `Initialize` constructs both
logger handles and gives each exactly one console sink and one
daily-rotating file sink, with the console pattern, file pattern and file
path taken from the specification, minimum level `trace`, and flush level
`trace` (flush on every record). -/
theorem C1_init_configures_loggers (spec : LogSystemSpecification) (st : LogState) :
    ∃ sinks : List Sink,
      sinks = [{ kind := SinkKind.console, pattern := some spec.ConsoleSinkLoggerPattern },
               { kind := SinkKind.dailyFile spec.LogFileName 0 0,
                 pattern := some spec.FileSinkLoggerPattern }] ∧
      (LogSystem.init spec st).s_SystemLogger =
        some { name := spec.SystemLoggerName, sinks := sinks,
               level := SpdLevel.trace, flushLevel := some SpdLevel.trace } ∧
      (LogSystem.init spec st).s_AppLogger =
        some { name := spec.AppLoggerName, sinks := sinks,
               level := SpdLevel.trace, flushLevel := some SpdLevel.trace } ∧
      sinks.countP Sink.isConsole = 1 ∧
      sinks.countP Sink.isDailyFile = 1 := by
  refine ⟨_, rfl, rfl, rfl, rfl, rfl⟩

/-- Claim C2: after `Initialize` both handles are non-null and both names are
in the global registry; after `Shutdown` both handles are null and the
registry is empty. -/
theorem C2_lifecycle_registry (spec : LogSystemSpecification) (st st2 : LogState) :
    ((LogSystem.init spec st).s_SystemLogger).isSome = true ∧
    ((LogSystem.init spec st).s_AppLogger).isSome = true ∧
    spec.SystemLoggerName ∈ (LogSystem.init spec st).registry ∧
    spec.AppLoggerName ∈ (LogSystem.init spec st).registry ∧
    (LogSystem.shutdown st2).s_SystemLogger = none ∧
    (LogSystem.shutdown st2).s_AppLogger = none ∧
    (LogSystem.shutdown st2).registry = [] := by
  refine ⟨rfl, rfl, ?_, ?_, rfl, rfl, rfl⟩ <;> simp [LogSystem.init]

/-- Claim C3: with assertions enabled, `ASSERT` emits exactly one
critical-level record — whose text is the `"Assertion failed: ("` prefix,
the stringified condition, the `")\nMessage: "` separator and the formatted
explanation — and traps, exactly when the condition is false; when the
condition is true nothing is emitted and no trap occurs.  The stringified
condition is spliced into the format string by the macro, so it must not
itself contain a placeholder opening brace. -/
theorem C3_assert_enabled_behaviour (cond : Bool) (condText fmt : String)
    (args : List String) (h : lbraceFree condText.data = true) :
    assertRun false cond condText fmt args =
      { records :=
          if cond then []
          else [{ logger := LoggerId.system, level := SpdLevel.critical,
                  text := String.mk ("Assertion failed: (".data ++ condText.data ++
                    ")\nMessage: ".data ++ (fmtArgs fmt args).data) }],
        trapped := !cond } := by
  cases cond with
  | true => rfl
  | false =>
    simp only [assertRun, loggerEmit, Bool.false_eq_true, if_false, Bool.not_false]
    rw [assert_message_shape condText fmt args h]

/-- Witness for C3 at `ASSERT(false, "x=\x7b\x7d", 5)`: the record contains
the condition text and the substring `x=5`. -/
theorem C3_assert_enabled_behaviour_witness :
    lbraceFree (String.data "false") = true ∧
    assertRun false false "false" "x=\x7b\x7d" ["5"] =
      { records :=
          if false then []
          else [{ logger := LoggerId.system, level := SpdLevel.critical,
                  text := String.mk ("Assertion failed: (".data ++ (String.data "false") ++
                    ")\nMessage: ".data ++ (fmtArgs "x=\x7b\x7d" ["5"]).data) }],
        trapped := !false } :=
  ⟨by decide, C3_assert_enabled_behaviour false "false" "x=\x7b\x7d" ["5"] (by decide)⟩

/-- Claim C4 (divergence witness): logging at the fatal/critical level does
NOT trigger a debugger trap.  `SW_ENGINE_CRITICAL` only emits the critical
record and leaves `trapped` false (the `DEBUG_BREAK();` under its definition
is commented out), and the `LOG_LEVEL_FATAL` branch of `PrepareAndPrint`
likewise only calls `logger->critical`, returning a record and nothing
else — against the claim, the spec and the macro's own documentation
("stops the application"). -/
theorem C4_critical_emits_without_trap :
    (SW_ENGINE_CRITICAL "Fatal error in module: core" []).records =
      [{ logger := LoggerId.system, level := SpdLevel.critical,
         text := "Fatal error in module: core" }] ∧
    (SW_ENGINE_CRITICAL "Fatal error in module: core" []).trapped = false ∧
    LogSystem.PrepareAndPrint LogType.SYSTEM LogLevel.LOG_LEVEL_FATAL "TAG" "boom" =
      { logger := LoggerId.system, level := SpdLevel.critical, text := "TAGboom" } := by
  refine ⟨?_, rfl, ?_⟩ <;> decide

/-- Claim C5: the generic entry point concatenates tag and message and
dispatches the level-matching spdlog call on the handle selected by the
selector (`s_SystemLogger` for `SYSTEM`, `s_AppLogger` otherwise). -/
theorem C5_prepare_and_print_dispatch (type : LogType) (level : LogLevel)
    (tag message : String) :
    LogSystem.PrepareAndPrint type level tag message =
      { logger := if type = LogType.SYSTEM then LoggerId.system else LoggerId.app,
        level := matchingSpdLevel level,
        text := tag ++ message } := by
  cases type <;> cases level <;>
    simp [LogSystem.PrepareAndPrint, LogSystem.PrepareAndPrintOn,
      matchingSpdLevel, loggerEmit, fmtArgs_pos01]

/-- Claim C6: under every setting of the assertion-disable switch, `VERIFY`
behaves exactly like `ASSERT` compiled with assertions enabled, while
`ASSERT` with the switch set does nothing at all. -/
theorem C6_verify_equals_enabled_assert (flag cond : Bool) (condText fmt : String)
    (args : List String) :
    verifyRunUnderFlag flag cond condText fmt args =
      assertRun false cond condText fmt args ∧
    assertRun true cond condText fmt args = { records := [], trapped := false } := by
  constructor
  · cases cond <;> rfl
  · rfl

/-- Claim C7 (counterexample): the cast-based family's parse step does not
fail on every non-empty format specifier — it inherits
`formatter<std::string>::parse`, which accepts the non-empty specifier
`s`. -/
theorem C7_cast_parse_accepts_nonempty_spec :
    castFormatterParse (String.data "s\x7d") = Except.ok [rbrace] ∧
    String.data "s" ≠ [] := by
  exact ⟨rfl, by decide⟩

/-- Claim C7 as amended: the iterator-based families (advanced, from the
source; basic, modelled from the spec) accept exactly the empty format
specifier and fail with a format error on every non-empty one; the
cast-based family accepts the empty specifier but inherits the standard
string formatter's parse, which also accepts standard non-empty string
specifiers. -/
theorem C7_parse_steps (c : Char) (rest : List Char)
    (h : (c == rbrace) = false) :
    advFormatterParse [] = Except.ok [] ∧
    advFormatterParse (rbrace :: rest) = Except.ok (rbrace :: rest) ∧
    advFormatterParse (c :: rest) = Except.error "invalid format" ∧
    basicFormatterParse [] = Except.ok [] ∧
    basicFormatterParse (rbrace :: rest) = Except.ok (rbrace :: rest) ∧
    basicFormatterParse (c :: rest) = Except.error "invalid format" ∧
    castFormatterParse [] = Except.ok [] ∧
    castFormatterParse [rbrace] = Except.ok [rbrace] := by
  have hc : ¬(c = rbrace) := by simpa using h
  refine ⟨rfl, ?_, ?_, rfl, ?_, ?_, rfl, rfl⟩ <;>
    simp [advFormatterParse, basicFormatterParse, hc]

/-- Witness for C7 at the non-closing-brace character `x`. -/
theorem C7_parse_steps_witness :
    ((Char.ofNat 120 == rbrace) = false) ∧
    (advFormatterParse [] = Except.ok [] ∧
     advFormatterParse (rbrace :: []) = Except.ok (rbrace :: []) ∧
     advFormatterParse (Char.ofNat 120 :: []) = Except.error "invalid format" ∧
     basicFormatterParse [] = Except.ok [] ∧
     basicFormatterParse (rbrace :: []) = Except.ok (rbrace :: []) ∧
     basicFormatterParse (Char.ofNat 120 :: []) = Except.error "invalid format" ∧
     castFormatterParse [] = Except.ok [] ∧
     castFormatterParse [rbrace] = Except.ok [rbrace]) :=
  ⟨by decide, C7_parse_steps (Char.ofNat 120) [] (by decide)⟩

/-- Claim C8: a value whose formatter is generated by the cast family
formats to exactly the string obtained by formatting its conversion
directly; in particular `format(path("/a/b")) = format(string("/a/b"))`. -/
theorem C8_cast_formatter_formats_conversion (p : FsPath) :
    formatValue (FmtValue.ofPath p) =
      formatValue (FmtValue.ofString (FsPath.string p)) ∧
    formatValue (FmtValue.ofPath { native := "/a/b" }) =
      formatValue (FmtValue.ofString "/a/b") := by
  exact ⟨rfl, rfl⟩

/-- Claim C9: in a post-initialization state, `AddSystemSink` and
`AddAppSink` append the given sink at the end of the named logger's sink
list, leave the previously attached sinks in place and in order (the old
list is the unchanged prefix), and leave the other logger's sink list
untouched; neither removes a sink. -/
theorem C9_add_sink_appends (st : LogState) (Ls La : Logger) (k : Sink)
    (hs : st.s_SystemLogger = some Ls) (ha : st.s_AppLogger = some La) :
    (LogSystem.AddSystemSink st k).s_SystemLogger =
      some { Ls with sinks := Ls.sinks ++ [k] } ∧
    (LogSystem.AddSystemSink st k).s_AppLogger = st.s_AppLogger ∧
    (LogSystem.AddAppSink st k).s_AppLogger =
      some { La with sinks := La.sinks ++ [k] } ∧
    (LogSystem.AddAppSink st k).s_SystemLogger = st.s_SystemLogger ∧
    (Ls.sinks ++ [k]).take Ls.sinks.length = Ls.sinks ∧
    (La.sinks ++ [k]).take La.sinks.length = La.sinks := by
  refine ⟨?_, rfl, ?_, rfl, ?_, ?_⟩
  · simp [LogSystem.AddSystemSink, hs]
  · simp [LogSystem.AddAppSink, ha]
  · exact List.take_left _ _
  · exact List.take_left _ _

/-- Witness for C9 on the state initialized from the test's specification. -/
theorem C9_add_sink_appends_witness :
    st0.s_SystemLogger = some sysL0 ∧ st0.s_AppLogger = some appL0 ∧
    ((LogSystem.AddSystemSink st0 sink0).s_SystemLogger =
       some { sysL0 with sinks := sysL0.sinks ++ [sink0] } ∧
     (LogSystem.AddSystemSink st0 sink0).s_AppLogger = st0.s_AppLogger ∧
     (LogSystem.AddAppSink st0 sink0).s_AppLogger =
       some { appL0 with sinks := appL0.sinks ++ [sink0] } ∧
     (LogSystem.AddAppSink st0 sink0).s_SystemLogger = st0.s_SystemLogger ∧
     (sysL0.sinks ++ [sink0]).take sysL0.sinks.length = sysL0.sinks ∧
     (appL0.sinks ++ [sink0]).take appL0.sinks.length = appL0.sinks) :=
  ⟨rfl, rfl, C9_add_sink_appends st0 sysL0 appL0 sink0 rfl rfl⟩

/-- Claim C10: every record produced by a failed `ASSERT` (under either
build switch) or `VERIFY` goes to the engine/system logger, and
`ReportAssertionFailure` dispatches to the system logger as well; the
app/runtime logger never receives an assertion-failure record. -/
theorem C10_assertion_failures_use_system_logger (flag cond : Bool)
    (condText fmt : String) (args : List String)
    (expression message file : String) (line : Int) :
    ((assertRun flag cond condText fmt args).records.all
      (fun r => r.logger == LoggerId.system)) = true ∧
    ((verifyRun cond condText fmt args).records.all
      (fun r => r.logger == LoggerId.system)) = true ∧
    (LogSystem.ReportAssertionFailure expression message file line).logger =
      LoggerId.system := by
  refine ⟨?_, ?_, rfl⟩ <;> cases flag <;> cases cond <;>
    simp [assertRun, verifyRun, loggerEmit]

end SW.Logger


